import Mathlib

/-!
Shallow embedding of the core simulation of the Shuriken Workshop game
(`src/main.rs`) and verification of its specification.

Modelling conventions:
* `f32` positions, sizes and velocities are embedded as exact rationals `ℚ`;
  the constants of the program (walls, sizes, gravity 0.25, launch velocity 20)
  are all exactly representable, so the control flow of the embedded functions
  matches the source for the inputs considered here.
* The transcendental difficulty formula `1.1f32.powf(1.0 / blocked) * 1000.0 * 1.5`
  followed by the `as u64` conversion of `Duration::from_millis` is embedded as
  the exact mathematical value truncated to a natural number of milliseconds
  (`newPeriodMs`, proved equal to the floor of the real-valued formula).
* `usize` arithmetic is embedded as `ℕ` with explicit wrap-around modulo 2^64
  where the source performs an unchecked subtraction (`lives -= 1`), matching
  release-mode semantics (debug builds panic at the same input).
* Bevy specifics: `collide` of `bevy::sprite::collide_aabb` is the strict AABB
  overlap test on centre/size pairs; a repeating `Timer` accumulates elapsed
  milliseconds and is finished once `elapsed ≥ duration`; `reset` clears the
  accumulator.  Entity despawn commands are counted explicitly.  The random
  spawn-point choice of `SliceRandom::choose` is an oracle parameter `pick`.
-/

/-! ### Constants (`src/main.rs` lines 9-38) -/

/-- Constant `TIME_STEP: f64 = 1.0 / 60.0`. -/
def TIME_STEP : ℚ := 1 / 60

def LEFT_WALL : ℚ := -400
def RIGHT_WALL : ℚ := 400
def TOP_WALL : ℚ := 300
def BOTTOM_WALL : ℚ := -300

/-- Constant `NUM_NINJAS: u32 = 5`. -/
def NUM_NINJAS : ℕ := 5
def NINJA_OFFSET : ℚ := 100
/-- xy-extent of `NINJA_SIZE` (z is draw order only). -/
def NINJA_SIZE : ℚ × ℚ := (40, 80)

/-- xy-extent of `SHURIKEN_SIZE`. -/
def SHURIKEN_SIZE : ℚ × ℚ := (30, 30)

def GRAVITY : ℚ := 1 / 4
def SHURIKEN_INIT_VELOCITY : ℚ := 20

def PADDLE_Y : ℚ := -40
/-- xy-extent of `PADDLE_SIZE = (RIGHT_WALL * 2.0 / (NUM_NINJAS * 1.2), 20.0, 1.0)`. -/
def PADDLE_SIZE : ℚ × ℚ := (RIGHT_WALL * 2 / (NUM_NINJAS * (6 / 5)), 20)

def MAX_HEALTH : ℕ := 3

/-! ### Geometry: `bevy::sprite::collide_aabb::collide`

Two axis-aligned rectangles, each given by centre and full size, overlap iff
their open extents intersect on both axes (strict inequalities, as in bevy). -/

def collide (aPos : ℚ × ℚ) (aSize : ℚ × ℚ) (bPos : ℚ × ℚ) (bSize : ℚ × ℚ) : Bool :=
  let aMinX := aPos.1 - aSize.1 / 2
  let aMaxX := aPos.1 + aSize.1 / 2
  let aMinY := aPos.2 - aSize.2 / 2
  let aMaxY := aPos.2 + aSize.2 / 2
  let bMinX := bPos.1 - bSize.1 / 2
  let bMaxX := bPos.1 + bSize.1 / 2
  let bMinY := bPos.2 - bSize.2 / 2
  let bMaxY := bPos.2 + bSize.2 / 2
  decide (aMinX < bMaxX) && decide (aMaxX > bMinX) &&
    decide (aMinY < bMaxY) && decide (aMaxY > bMinY)

/-! ### Data model -/

/-- A shuriken entity: `Transform` translation (x, y), its 1-D `Velocity`,
and its sprite colour reduced to the one bit the simulation logic touches
(`phaseDown = true` iff the colour is `SHURIKEN_DOWN_COLOR`). -/
structure Shuriken where
  x : ℚ
  y : ℚ
  v : ℚ
  phaseDown : Bool
deriving DecidableEq

/-- The `State` resource: lives, blocked count, the repeating difficulty
`Timer` (duration and elapsed, in whole milliseconds as stored by
`Duration::from_millis`), and the key debounce flag. -/
structure SessionState where
  lives : ℕ
  blocked : ℕ
  timerDuration : ℕ
  timerElapsed : ℕ
  keyDebounce : Bool
deriving DecidableEq

/-- The `Paddle` component (slot index, a `u32` in the source) together with
the x-translation of its `Transform`. -/
structure PaddleState where
  slot : ℕ
  x : ℚ
deriving DecidableEq

/-- Rust `usize` wrap-around subtraction of 1 (release semantics of
`state.lives -= 1`; a debug build panics exactly when this wraps). -/
def usizeWrapDec (n : ℕ) : ℕ := (n + (2 ^ 64 - 1)) % 2 ^ 64

/-- The new timer duration installed on a paddle block:
`Duration::from_millis((1.1f32.powf(1.0 / blocked) * 1000.0 * 1.5) as u64)`,
i.e. the integer part of `1.1 ^ (1 / blocked) * 1500` milliseconds, embedded
as the greatest `m ≤ 1650` with `m ^ blocked * 10 ≤ 11 * 1500 ^ blocked`
(proved below to be the floor of the real-valued formula for `blocked ≥ 1`). -/
def newPeriodMs (blocked : ℕ) : ℕ :=
  Nat.findGreatest (fun m => m ^ blocked * 10 ≤ 11 * 1500 ^ blocked) 1650

/-- Default session state `State::default()`: 3 lives, 0 blocked, a repeating timer of
`(1.1 ^ 0 * 1000 * 1.5) as u64 = 1500` ms, debounce clear. -/
def initialState : SessionState :=
  { lives := MAX_HEALTH
    blocked := 0
    timerDuration := (((11 : ℚ) / 10) ^ (0 : ℕ) * 1000 * (3 / 2)).floor.toNat
    timerElapsed := 0
    keyDebounce := false }

/-! ### `do_physics` (lines 207-217) -/

/-- One physics step for one shuriken: `translation.y += velocity`, then
`velocity -= GRAVITY`, then the sprite colour is set to the descending colour
whenever the (new) velocity is negative; otherwise it is left unchanged. -/
def do_physics_step (sh : Shuriken) : Shuriken :=
  let y := sh.y + sh.v
  let v := sh.v - GRAVITY
  { sh with y := y, v := v, phaseDown := sh.phaseDown || decide (v < 0) }

/-- System `do_physics`: the step applied to every live shuriken. -/
def do_physics (shuris : List Shuriken) : List Shuriken :=
  shuris.map do_physics_step

/-! ### `update_paddle` (lines 183-205) -/

/-- Paddle x-translation for a slot:
`LEFT_WALL + RIGHT_WALL / NUM_NINJAS + RIGHT_WALL * 2 * slot / NUM_NINJAS`. -/
def paddleX (slot : ℕ) : ℚ :=
  LEFT_WALL + RIGHT_WALL / NUM_NINJAS + RIGHT_WALL * 2 * slot / NUM_NINJAS

/-- System `update_paddle`: if the debounce flag is set, clear it when neither key is
pressed and return early (the transform is not touched).  Otherwise move left
one slot if Left is pressed and `slot > 0`, else move right one slot if Right
is pressed and `slot < NUM_NINJAS - 1`, setting the debounce flag on a move,
and finally recompute the paddle's x-translation from its slot. -/
def update_paddle (left right : Bool) (z : SessionState × PaddleState) :
    SessionState × PaddleState :=
  let s := z.1
  let p := z.2
  if s.keyDebounce then
    (if !(left || right) then { s with keyDebounce := false } else s, p)
  else
    let m :=
      if left && decide (0 < p.slot) then (p.slot - 1, true)
      else if right && decide (p.slot < NUM_NINJAS - 1) then (p.slot + 1, true)
      else (p.slot, s.keyDebounce)
    ({ s with keyDebounce := m.2 }, { slot := m.1, x := paddleX m.1 })

/-! ### `spawn_shurikens` (lines 219-242) -/

/-- The per-tick advance of the difficulty timer in whole milliseconds:
`Duration::from_millis((TIME_STEP * 1000.0) as u64)`, i.e. `⌊1000 / 60⌋`. -/
def tickDeltaMs : ℕ := (TIME_STEP * 1000).floor.toNat

/-- System `spawn_shurikens`: tick the timer by `tickDeltaMs`; when it has reached its
duration, spawn exactly one shuriken at the chosen ninja's transform (the
`pick` oracle stands for `SliceRandom::choose`; the source `unwrap`s, so the
ninja list is assumed non-empty by the callers) with the upward colour and
initial velocity `SHURIKEN_INIT_VELOCITY`, and reset the timer's accumulator
to zero (bevy's repeating tick wraps the remainder, and the explicit `reset`
then clears it entirely).  Otherwise just accumulate. -/
def spawn_shurikens (pick : ℕ) (ninjas : List (ℚ × ℚ)) (s : SessionState) :
    SessionState × Option Shuriken :=
  let elapsed := s.timerElapsed + tickDeltaMs
  if s.timerDuration ≤ elapsed then
    let chosen := ninjas.getD (pick % ninjas.length) (0, 0)
    ({ s with timerElapsed := 0 },
      some { x := chosen.1, y := chosen.2, v := SHURIKEN_INIT_VELOCITY, phaseDown := false })
  else
    ({ s with timerElapsed := elapsed }, none)

/-- Iterating the spawn system over consecutive fixed ticks (the spawned
entities themselves are irrelevant to the timer's evolution). -/
def spawnTicks (pick : ℕ) (ninjas : List (ℚ × ℚ)) (s : SessionState) : ℕ → SessionState
  | 0 => s
  | k + 1 => (spawn_shurikens pick ninjas (spawnTicks pick ninjas s k)).1

/-! ### `check_collisions` (lines 244-267) -/

/-- The inner ninja loop for one shuriken position: for each ninja whose
rectangle overlaps the shuriken's, a despawn command is issued and
`state.lives -= 1` is executed (the source has no `break`).  Returns the
updated session state and the number of despawn commands issued. -/
def hitNinjas (ninjas : List (ℚ × ℚ)) (shPos : ℚ × ℚ) (s : SessionState) :
    SessionState × ℕ :=
  ninjas.foldl
    (fun acc ninja =>
      if collide shPos SHURIKEN_SIZE ninja NINJA_SIZE then
        ({ acc.1 with lives := usizeWrapDec acc.1.lives }, acc.2 + 1)
      else acc)
    (s, 0)

/-- Processing of one (descending) shuriken: first the paddle test — on
overlap the shuriken is despawned, `blocked` incremented, and the timer
replaced by a fresh repeating timer of `newPeriodMs (blocked + 1)` ms
(`continue`) — otherwise the ninja loop. -/
def processShuriken (paddle : ℚ × ℚ) (ninjas : List (ℚ × ℚ)) (s : SessionState)
    (sh : Shuriken) : SessionState × ℕ :=
  if collide (sh.x, sh.y) SHURIKEN_SIZE paddle PADDLE_SIZE then
    ({ s with
        blocked := s.blocked + 1
        timerDuration := newPeriodMs (s.blocked + 1)
        timerElapsed := 0 }, 1)
  else
    hitNinjas ninjas (sh.x, sh.y) s

/-- System `check_collisions`: every shuriken whose velocity is strictly negative is
processed in turn (the `filter(|(_, _, v)| v.0 < 0.0)` of the source); the
second component is the total number of despawn commands issued. -/
def check_collisions (paddle : ℚ × ℚ) (ninjas : List (ℚ × ℚ))
    (shuris : List Shuriken) (s : SessionState) : SessionState × ℕ :=
  (shuris.filter (fun sh => decide (sh.v < 0))).foldl
    (fun acc sh =>
      let r := processShuriken paddle ninjas acc.1 sh
      (r.1, acc.2 + r.2))
    (s, 0)

/-! ### `update_scoreboard` (lines 269-285) -/

/-- Output of one run of the scoreboard system, which reads the session state
immutably (`Res<State>`): the health-marker indices despawned this run, the
game-over summary printed (carrying the blocked count), and whether an
`AppExit` event was sent. -/
structure ScoreboardOut where
  despawnedMarkers : List ℕ
  summary : Option ℕ
  exitSignal : Bool
deriving DecidableEq

/-- System `update_scoreboard`: despawn every health marker with `index + 1 > lives`;
when `lives == 0`, print the blocked count and send `AppExit`.  The session
state itself is not written (the system takes `Res<State>`, not `ResMut`). -/
def update_scoreboard (markers : List ℕ) (s : SessionState) : ScoreboardOut :=
  { despawnedMarkers := markers.filter (fun i => decide (s.lives < i + 1))
    summary := if s.lives = 0 then some s.blocked else none
    exitSignal := decide (s.lives = 0) }

/-! ### The real-valued difficulty formula -/

/-- The untruncated difficulty period after `n` blocks, in milliseconds:
`1.1 ^ (1 / n) * 1500` (real-number reading of the source's f32 formula). -/
noncomputable def periodFormula (n : ℕ) : ℝ := (1.1 : ℝ) ^ ((1 : ℝ) / n) * 1500

/-- Number of target rectangles overlapping a given shuriken position. -/
def overlapCount (pos : ℚ × ℚ) (ninjas : List (ℚ × ℚ)) : ℕ :=
  ninjas.countP (fun nj => collide pos SHURIKEN_SIZE nj NINJA_SIZE)

/-! ### Helper lemmas -/

lemma usizeWrapDec_of_pos {n : ℕ} (h1 : 1 ≤ n) (h2 : n < 2 ^ 64) :
    usizeWrapDec n = n - 1 := by
  have h64 : (2 : ℕ) ^ 64 = 18446744073709551616 := by norm_num
  unfold usizeWrapDec
  rw [h64] at *
  omega

lemma tickDeltaMs_eq : tickDeltaMs = 16 := by
  have h : (TIME_STEP * 1000 : ℚ) = 50 / 3 := by norm_num [TIME_STEP]
  unfold tickDeltaMs
  rw [h, show ((50 : ℚ) / 3).floor = ⌊(50 : ℚ) / 3⌋ from rfl]
  norm_num
  decide

lemma initialState_eq :
    initialState =
      { lives := 3, blocked := 0, timerDuration := 1500, timerElapsed := 0,
        keyDebounce := false } := by
  have h : (((11 : ℚ) / 10) ^ (0 : ℕ) * 1000 * (3 / 2)) = 1500 := by norm_num
  unfold initialState
  rw [h, show ((1500 : ℚ)).floor = ⌊(1500 : ℚ)⌋ from rfl]
  norm_num [MAX_HEALTH]
  decide

/-- C5: a projectile is tested for paddle/target collision only while its
velocity is strictly negative: a shuriken with `v ≥ 0` is skipped entirely by
`check_collisions` — it is never despawned, and contributes no change to
lives, blocked count or timer. -/
theorem ascending_shuriken_exempt :
    ∀ (pad : ℚ × ℚ) (ninjas : List (ℚ × ℚ)) (s : SessionState) (sh : Shuriken)
      (rest : List Shuriken), 0 ≤ sh.v →
      check_collisions pad ninjas (sh :: rest) s = check_collisions pad ninjas rest s ∧
      check_collisions pad ninjas [sh] s = (s, 0) := by
  intro pad ninjas s sh rest hv
  have h : decide (sh.v < 0) = false := by simp [not_lt.mpr hv]
  constructor
  · simp [check_collisions, List.filter_cons, h]
  · simp [check_collisions, List.filter_cons, h]

theorem ascending_shuriken_exempt_witness :
    check_collisions (0, PADDLE_Y) [(0, 0)] [{ x := 0, y := 0, v := 20, phaseDown := false }]
        initialState = (initialState, 0) :=
  (ascending_shuriken_exempt (0, PADDLE_Y) [(0, 0)] initialState
    { x := 0, y := 0, v := 20, phaseDown := false } [] (by norm_num)).2

/-- C6: the physics integrator updates position with the old velocity and then
the velocity by exactly the gravity constant (`y += v; v -= g`), so velocity
strictly decreases each tick; and provided the visual phase currently equals
the sign test `v < 0` (as it does for every spawned projectile), it equals it
again after the tick — the phase is "descending" exactly when `v < 0`. -/
theorem do_physics_contract :
    ∀ (sh : Shuriken) (shuris : List Shuriken),
      do_physics shuris = shuris.map do_physics_step ∧
      (do_physics_step sh).y = sh.y + sh.v ∧
      (do_physics_step sh).v = sh.v - GRAVITY ∧
      (do_physics_step sh).v < sh.v ∧
      (sh.phaseDown = decide (sh.v < 0) →
        (do_physics_step sh).phaseDown = decide ((do_physics_step sh).v < 0)) := by
  intro sh shuris
  refine ⟨rfl, rfl, rfl, ?_, ?_⟩
  · show sh.v - GRAVITY < sh.v
    have : (0 : ℚ) < GRAVITY := by norm_num [GRAVITY]
    linarith
  · intro h
    by_cases hv : sh.v < 0
    · have hv' : sh.v - GRAVITY < 0 := by
        have : (0 : ℚ) < GRAVITY := by norm_num [GRAVITY]
        linarith
      simp [do_physics_step, h, hv, hv']
    · simp [do_physics_step, h, hv]

theorem do_physics_contract_witness :
    (do_physics_step { x := 0, y := 5, v := 20, phaseDown := false }).phaseDown
        = decide ((do_physics_step { x := 0, y := 5, v := 20, phaseDown := false }).v < 0) ∧
      (do_physics_step { x := 0, y := 5, v := 20, phaseDown := false }).v < 20 :=
  ⟨(do_physics_contract { x := 0, y := 5, v := 20, phaseDown := false } []).2.2.2.2
      (by decide),
    (do_physics_contract { x := 0, y := 5, v := 20, phaseDown := false } []).2.2.2.1⟩

/-- C8: whatever the input sequence, the paddle slot index stays in
`[0, NUM_NINJAS - 1]` after every tick (it is a natural number, so the lower
bound is inherent); a lone directional press at the corresponding boundary
leaves the slot unchanged instead of wrapping. -/
theorem paddle_slot_in_range :
    ∀ (left right : Bool) (z : SessionState × PaddleState),
      z.2.slot < NUM_NINJAS →
      (update_paddle left right z).2.slot < NUM_NINJAS ∧
      (left = true → right = false → z.2.slot = 0 →
        (update_paddle left right z).2.slot = 0) ∧
      (right = true → left = false → z.2.slot = NUM_NINJAS - 1 →
        (update_paddle left right z).2.slot = NUM_NINJAS - 1) := by
  intro l r z hz
  unfold update_paddle
  by_cases hd : z.1.keyDebounce
  · simp only [hd, if_true]
    exact ⟨hz, fun _ _ hs => hs, fun _ _ hs => hs⟩
  · simp only [hd, if_false, Bool.false_eq_true]
    refine ⟨?_, ?_, ?_⟩
    · split
      · next hcond =>
        simp only [Bool.and_eq_true, decide_eq_true_eq] at hcond
        simp only [NUM_NINJAS] at *
        omega
      · split
        · next hcond =>
          simp only [Bool.and_eq_true, decide_eq_true_eq] at hcond
          simp only [NUM_NINJAS] at *
          omega
        · exact hz
    · intro hl hr hs
      subst hl hr
      simp only [hs]
      norm_num
    · intro hr hl hs
      subst hl hr
      simp only [hs]
      norm_num [NUM_NINJAS]

theorem paddle_slot_in_range_witness :
    (update_paddle true false (initialState, { slot := 0, x := paddleX 0 })).2.slot = 0 ∧
      (update_paddle false true (initialState, { slot := 4, x := paddleX 4 })).2.slot = 4 ∧
      (update_paddle false true (initialState, { slot := 4, x := paddleX 4 })).2.slot
        < NUM_NINJAS :=
  ⟨(paddle_slot_in_range true false (initialState, { slot := 0, x := paddleX 0 })
      (by decide)).2.1 rfl rfl rfl,
    (paddle_slot_in_range false true (initialState, { slot := 4, x := paddleX 4 })
      (by decide)).2.2 rfl rfl (by decide),
    (paddle_slot_in_range false true (initialState, { slot := 4, x := paddleX 4 })
      (by decide)).1⟩

/-! ### Collision evaluation helpers -/

lemma collide_eq_true_iff (aPos aSize bPos bSize : ℚ × ℚ) :
    collide aPos aSize bPos bSize = true ↔
      aPos.1 - aSize.1 / 2 < bPos.1 + bSize.1 / 2 ∧
      aPos.1 + aSize.1 / 2 > bPos.1 - bSize.1 / 2 ∧
      aPos.2 - aSize.2 / 2 < bPos.2 + bSize.2 / 2 ∧
      aPos.2 + aSize.2 / 2 > bPos.2 - bSize.2 / 2 := by
  simp [collide, and_assoc]

lemma collide_eq_false_iff (aPos aSize bPos bSize : ℚ × ℚ) :
    collide aPos aSize bPos bSize = false ↔
      ¬(aPos.1 - aSize.1 / 2 < bPos.1 + bSize.1 / 2 ∧
        aPos.1 + aSize.1 / 2 > bPos.1 - bSize.1 / 2 ∧
        aPos.2 - aSize.2 / 2 < bPos.2 + bSize.2 / 2 ∧
        aPos.2 + aSize.2 / 2 > bPos.2 - bSize.2 / 2) := by
  rw [← collide_eq_true_iff, Bool.eq_false_iff, Ne]


lemma hitNinjas_shift (pos : ℚ × ℚ) (ninjas : List (ℚ × ℚ)) (s : SessionState) (c : ℕ) :
    ninjas.foldl
      (fun acc ninja =>
        if collide pos SHURIKEN_SIZE ninja NINJA_SIZE then
          ({ acc.1 with lives := usizeWrapDec acc.1.lives }, acc.2 + 1)
        else acc)
      (s, c)
    = ((hitNinjas ninjas pos s).1, c + (hitNinjas ninjas pos s).2) := by
  induction ninjas generalizing s c with
  | nil => simp [hitNinjas]
  | cons nj tl ih =>
    by_cases h : collide pos SHURIKEN_SIZE nj NINJA_SIZE = true
    · simp only [hitNinjas, List.foldl_cons, h, if_true]
      rw [ih, ih]
      simp only [Prod.mk.injEq, true_and]
      omega
    · simp only [Bool.not_eq_true] at h
      simp only [hitNinjas, List.foldl_cons, h, Bool.false_eq_true, if_false]
      rw [ih]
      simp [hitNinjas]

lemma hitNinjas_eq (pos : ℚ × ℚ) (ninjas : List (ℚ × ℚ)) (s : SessionState)
    (hk : overlapCount pos ninjas ≤ s.lives) (hl : s.lives < 2 ^ 64) :
    hitNinjas ninjas pos s =
      ({ s with lives := s.lives - overlapCount pos ninjas }, overlapCount pos ninjas) := by
  induction ninjas generalizing s with
  | nil => simp [hitNinjas, overlapCount]
  | cons nj tl ih =>
    obtain ⟨lv, bl, td, te, kd⟩ := s
    by_cases h : collide pos SHURIKEN_SIZE nj NINJA_SIZE = true
    · have hcnt : overlapCount pos (nj :: tl) = overlapCount pos tl + 1 := by
        simp [overlapCount, List.countP_cons, h]
      rw [hcnt] at hk ⊢
      have hk' : overlapCount pos tl + 1 ≤ lv := hk
      have hl' : lv < 2 ^ 64 := hl
      have hdec : usizeWrapDec lv = lv - 1 := usizeWrapDec_of_pos (by omega) hl'
      simp only [hitNinjas, List.foldl_cons, h, if_true]
      rw [hitNinjas_shift]
      rw [ih ⟨usizeWrapDec lv, bl, td, te, kd⟩
          (by simp only [hdec]; omega) (by simp only [hdec]; omega)]
      simp only [Prod.mk.injEq, SessionState.mk.injEq, hdec, and_true, true_and,
        eq_self_iff_true]
      all_goals omega
    · simp only [Bool.not_eq_true] at h
      have hcnt : overlapCount pos (nj :: tl) = overlapCount pos tl := by
        simp [overlapCount, List.countP_cons, h]
      rw [hcnt] at hk ⊢
      simp only [hitNinjas, List.foldl_cons, h, Bool.false_eq_true, if_false]
      exact ih ⟨lv, bl, td, te, kd⟩ hk hl

/-- C1 (amended): for a descending projectile not overlapping the paddle, the
Collision Resolver tests it against every target in enumeration order with no
early exit: each overlapping target issues one despawn command and one life
decrement, so a projectile overlapping `k` targets costs `k` lives and `k`
despawn commands (blocked count, timer and debounce flag are untouched). -/
theorem hit_processing_per_target :
    ∀ (pad : ℚ × ℚ) (ninjas : List (ℚ × ℚ)) (s : SessionState) (sh : Shuriken),
      collide (sh.x, sh.y) SHURIKEN_SIZE pad PADDLE_SIZE = false →
      overlapCount (sh.x, sh.y) ninjas ≤ s.lives →
      s.lives < 2 ^ 64 →
      processShuriken pad ninjas s sh =
        ({ s with lives := s.lives - overlapCount (sh.x, sh.y) ninjas },
          overlapCount (sh.x, sh.y) ninjas) := by
  intro pad ninjas s sh hpad hk hl
  simp only [processShuriken, hpad, Bool.false_eq_true, if_false]
  exact hitNinjas_eq (sh.x, sh.y) ninjas s hk hl

theorem hit_processing_per_target_witness :
    processShuriken (500, PADDLE_Y) [(1, 2)] initialState
        { x := 1, y := 2, v := -1, phaseDown := true }
      = ({ initialState with lives := initialState.lives - overlapCount (1, 2) [(1, 2)] },
          overlapCount (1, 2) [(1, 2)]) := by
  have hpad : collide (1, 2) SHURIKEN_SIZE (500, PADDLE_Y) PADDLE_SIZE = false := by
    rw [collide_eq_false_iff]
    norm_num [SHURIKEN_SIZE, PADDLE_SIZE, PADDLE_Y, RIGHT_WALL, NUM_NINJAS]
  have hn : collide (1, 2) SHURIKEN_SIZE (1, 2) NINJA_SIZE = true := by
    rw [collide_eq_true_iff]
    norm_num [SHURIKEN_SIZE, NINJA_SIZE]
  have hcnt : overlapCount (1, 2) [(1, 2)] = 1 := by
    simp [overlapCount, List.countP_cons, hn]
  exact hit_processing_per_target (500, PADDLE_Y) [(1, 2)] initialState
    { x := 1, y := 2, v := -1, phaseDown := true } hpad
    (by rw [initialState_eq, hcnt]; norm_num) (by rw [initialState_eq]; norm_num)

/-- C1 counterexample: one descending projectile overlapping two targets (and
not the paddle) is despawned twice and costs two lives in a single tick
(3 → 1), where the claim predicts exactly one decrement (3 → 2) with the
second target never tested once the first overlap is found. -/
theorem first_match_wins_counterexample :
    (check_collisions (500, PADDLE_Y) [(1, 2), (6, 2)]
        [{ x := 1, y := 2, v := -1, phaseDown := true }] initialState).1.lives = 1 ∧
      (check_collisions (500, PADDLE_Y) [(1, 2), (6, 2)]
        [{ x := 1, y := 2, v := -1, phaseDown := true }] initialState).2 = 2 ∧
      initialState.lives - 1 = 2 := by
  have hpad : collide (1, 2) SHURIKEN_SIZE (500, PADDLE_Y) PADDLE_SIZE = false := by
    rw [collide_eq_false_iff]
    norm_num [SHURIKEN_SIZE, PADDLE_SIZE, PADDLE_Y, RIGHT_WALL, NUM_NINJAS]
  have hn1 : collide (1, 2) SHURIKEN_SIZE (1, 2) NINJA_SIZE = true := by
    rw [collide_eq_true_iff]
    norm_num [SHURIKEN_SIZE, NINJA_SIZE]
  have hn2 : collide (1, 2) SHURIKEN_SIZE (6, 2) NINJA_SIZE = true := by
    rw [collide_eq_true_iff]
    norm_num [SHURIKEN_SIZE, NINJA_SIZE]
  have hv : ((-1 : ℚ) < 0) := by norm_num
  rw [initialState_eq]
  simp [check_collisions, processShuriken, hitNinjas, List.filter_cons, hv, hpad, hn1, hn2,
    usizeWrapDec, MAX_HEALTH]

/-- C2 (amended): the terminal check is a pure function of the session state
with no latch: on every invocation with `lives = 0` it emits the blocked-count
summary and sends the exit signal (exactly-once delivery relies on the host
shutting down after the first signal), and with `lives ≠ 0` it emits and
signals nothing; it despawns exactly the health markers with index ≥ lives and
never writes the session state itself (which the fixed-step pipeline keeps
mutating on any tick that still runs). -/
theorem terminal_check_behavior :
    ∀ (markers : List ℕ) (s : SessionState),
      (s.lives = 0 →
        (update_scoreboard markers s).exitSignal = true ∧
        (update_scoreboard markers s).summary = some s.blocked) ∧
      (s.lives ≠ 0 →
        (update_scoreboard markers s).exitSignal = false ∧
        (update_scoreboard markers s).summary = none) ∧
      (update_scoreboard markers s).despawnedMarkers
        = markers.filter (fun i => decide (s.lives < i + 1)) := by
  intro markers s
  refine ⟨fun h0 => ?_, fun h0 => ?_, rfl⟩
  · simp [update_scoreboard, h0]
  · simp [update_scoreboard, h0]

theorem terminal_check_behavior_witness :
    (update_scoreboard [0, 1, 2] ⟨0, 7, 1500, 0, false⟩).exitSignal = true ∧
      (update_scoreboard [0, 1, 2] ⟨0, 7, 1500, 0, false⟩).summary = some 7 :=
  (terminal_check_behavior [0, 1, 2] ⟨0, 7, 1500, 0, false⟩).1 rfl

/-- C2 counterexample: with lives already 0, the terminal check signals
shutdown; one further fixed-step tick still mutates the session state (the
difficulty timer accumulates), and the terminal check on that later state
signals shutdown again — refuting "signals exactly once, repeated terminal
checks never re-signal, and no further session-state mutation occurs". -/
theorem terminal_resignal_counterexample :
    (update_scoreboard [0, 1, 2] ⟨0, 3, 1500, 0, false⟩).exitSignal = true ∧
      (spawn_shurikens 0 [(1, 2)] ⟨0, 3, 1500, 0, false⟩).1
        ≠ (⟨0, 3, 1500, 0, false⟩ : SessionState) ∧
      (update_scoreboard [0, 1, 2]
        (spawn_shurikens 0 [(1, 2)] ⟨0, 3, 1500, 0, false⟩).1).exitSignal = true := by
  refine ⟨by simp [update_scoreboard], ?_, ?_⟩
  · simp [spawn_shurikens, tickDeltaMs_eq]
  · simp [spawn_shurikens, tickDeltaMs_eq, update_scoreboard]

/-- C3: evaluation of the collision resolver at the failing input of the
life-counter bug.  With lives already 0 (the terminal state) and one further
descending shuriken overlapping a target, the unguarded `state.lives -= 1`
wraps the `usize` counter around to `2^64 - 1`, far above `MAX_HEALTH`
(a debug build panics on the same input), violating the intended
`lives ∈ [0, MAX_HEALTH]` floor-at-zero invariant. -/
theorem lives_underflow_at_zero :
    (check_collisions (500, PADDLE_Y) [(1, 2)]
        [{ x := 1, y := 2, v := -1, phaseDown := true }]
        ⟨0, 0, 1500, 0, false⟩).1.lives = 18446744073709551615 ∧
      MAX_HEALTH < 18446744073709551615 := by
  have hpad : collide (1, 2) SHURIKEN_SIZE (500, PADDLE_Y) PADDLE_SIZE = false := by
    rw [collide_eq_false_iff]
    norm_num [SHURIKEN_SIZE, PADDLE_SIZE, PADDLE_Y, RIGHT_WALL, NUM_NINJAS]
  have hn : collide (1, 2) SHURIKEN_SIZE (1, 2) NINJA_SIZE = true := by
    rw [collide_eq_true_iff]
    norm_num [SHURIKEN_SIZE, NINJA_SIZE]
  have hv : ((-1 : ℚ) < 0) := by norm_num
  simp [check_collisions, processShuriken, hitNinjas, List.filter_cons, hv, hpad, hn,
    usizeWrapDec, MAX_HEALTH]

/-- C7 (amended): the debounce machine yields at most one slot change per
discrete press: with a directional intent held, applying the controller again
changes nothing (so K held ticks act exactly like the first tick); while
debounced a held key is a complete no-op and the flag clears only when both
intents are false; from IDLE, Left is tested first and moves when `slot > 0`,
but with both intents held at the left boundary the Right move is applied
instead (only one move per tick), and a lone Left press at the boundary
produces zero slot changes and leaves the machine IDLE. -/
theorem update_paddle_debounce :
    ∀ (left right : Bool) (z : SessionState × PaddleState),
      (left || right) = true →
      update_paddle left right (update_paddle left right z) = update_paddle left right z ∧
      (z.1.keyDebounce = true → update_paddle left right z = z) ∧
      (z.1.keyDebounce = true → update_paddle false false z
          = ({ z.1 with keyDebounce := false }, z.2)) ∧
      (z.1.keyDebounce = true → (update_paddle left right z).1.keyDebounce = true) ∧
      (z.1.keyDebounce = false → left = true → 0 < z.2.slot →
        update_paddle left right z
          = ({ z.1 with keyDebounce := true },
              { slot := z.2.slot - 1, x := paddleX (z.2.slot - 1) })) ∧
      (z.1.keyDebounce = false → left = true → right = true → z.2.slot = 0 →
        update_paddle left right z
          = ({ z.1 with keyDebounce := true }, { slot := 1, x := paddleX 1 })) ∧
      (z.1.keyDebounce = false → left = true → right = false → z.2.slot = 0 →
        update_paddle left right z = (z.1, { slot := z.2.slot, x := paddleX z.2.slot })) := by
  intro l r z hlr
  obtain ⟨⟨lv, bl, td, te, kd⟩, ⟨slot, px⟩⟩ := z
  cases kd with
  | true =>
    have h1 : update_paddle l r (⟨lv, bl, td, te, true⟩, ⟨slot, px⟩)
        = (⟨lv, bl, td, te, true⟩, ⟨slot, px⟩) := by
      simp [update_paddle, hlr]
    refine ⟨by rw [h1, h1], fun _ => h1, fun _ => by simp [update_paddle],
      fun _ => by rw [h1], fun hc => by simp at hc, fun hc => by simp at hc,
      fun hc => by simp at hc⟩
  | false =>
    refine ⟨?_, fun hc => by simp at hc, fun hc => by simp at hc, fun hc => by simp at hc,
      ?_, ?_, ?_⟩
    · by_cases hl : l = true ∧ 0 < slot
      · obtain ⟨hl1, hl2⟩ := hl
        subst hl1
        have h1 : update_paddle true r (⟨lv, bl, td, te, false⟩, ⟨slot, px⟩)
            = (⟨lv, bl, td, te, true⟩, ⟨slot - 1, paddleX (slot - 1)⟩) := by
          simp [update_paddle, hl2]
        rw [h1]
        simp [update_paddle]
      · by_cases hr : r = true ∧ slot < NUM_NINJAS - 1
        · obtain ⟨hr1, hr2⟩ := hr
          subst hr1
          by_cases hl2 : l = true
          · subst hl2
            have hslot : ¬ (0 < slot) := fun hc => hl ⟨rfl, hc⟩
            have h1 : update_paddle true true (⟨lv, bl, td, te, false⟩, ⟨slot, px⟩)
                = (⟨lv, bl, td, te, true⟩, ⟨slot + 1, paddleX (slot + 1)⟩) := by
              simp [update_paddle, hslot, hr2]
            rw [h1]
            simp [update_paddle]
          · have hl3 : l = false := by
              cases l
              · rfl
              · exact absurd rfl hl2
            subst hl3
            have h1 : update_paddle false true (⟨lv, bl, td, te, false⟩, ⟨slot, px⟩)
                = (⟨lv, bl, td, te, true⟩, ⟨slot + 1, paddleX (slot + 1)⟩) := by
              simp [update_paddle, hr2]
            rw [h1]
            simp [update_paddle]
        · -- no move is possible: the state reaches a fixed point after one tick
          have hlc : (l && decide (0 < slot)) = false := by
            cases l
            · rfl
            · simp only [Bool.true_and, decide_eq_false_iff_not]
              exact fun hc => hl ⟨rfl, hc⟩
          have hrc : (r && decide (slot < NUM_NINJAS - 1)) = false := by
            cases r
            · rfl
            · simp only [Bool.true_and, decide_eq_false_iff_not]
              exact fun hc => hr ⟨rfl, hc⟩
          have h1 : update_paddle l r (⟨lv, bl, td, te, false⟩, ⟨slot, px⟩)
              = (⟨lv, bl, td, te, false⟩, ⟨slot, paddleX slot⟩) := by
            simp [update_paddle, hlc, hrc]
          rw [h1]
          simp [update_paddle, hlc, hrc]
    · intro _ hl hslot
      subst hl
      simp [update_paddle, hslot]
    · intro _ hl hr hslot
      subst hl hr hslot
      simp [update_paddle, NUM_NINJAS]
    · intro _ hl hr hslot
      subst hl hr hslot
      simp [update_paddle]

theorem update_paddle_debounce_witness :
    update_paddle true false (update_paddle true false
        (⟨3, 0, 1500, 0, false⟩, { slot := 2, x := paddleX 2 }))
      = update_paddle true false (⟨3, 0, 1500, 0, false⟩, { slot := 2, x := paddleX 2 }) ∧
      update_paddle true false (⟨3, 0, 1500, 0, false⟩, { slot := 2, x := paddleX 2 })
        = (⟨3, 0, 1500, 0, true⟩, { slot := 1, x := paddleX 1 }) :=
  ⟨(update_paddle_debounce true false
      (⟨3, 0, 1500, 0, false⟩, { slot := 2, x := paddleX 2 }) rfl).1,
    (update_paddle_debounce true false
      (⟨3, 0, 1500, 0, false⟩, { slot := 2, x := paddleX 2 }) rfl).2.2.2.2.1
      rfl rfl (by decide)⟩

/-- C7 counterexample: with both intents held while IDLE at the left boundary
(slot 0), the controller applies the Right move (slot becomes 1), not "only
the left move"; and a lone Left intent held at the boundary for consecutive
ticks produces zero slot changes (not exactly one), with the debounce flag
never set. -/
theorem debounce_boundary_counterexample :
    (update_paddle true true (⟨3, 0, 1500, 0, false⟩,
        { slot := 0, x := paddleX 0 })).2.slot = 1 ∧
      (update_paddle true false (⟨3, 0, 1500, 0, false⟩,
        { slot := 0, x := paddleX 0 })).2.slot = 0 ∧
      (update_paddle true false (⟨3, 0, 1500, 0, false⟩,
        { slot := 0, x := paddleX 0 })).1.keyDebounce = false ∧
      (update_paddle true false (update_paddle true false (⟨3, 0, 1500, 0, false⟩,
        { slot := 0, x := paddleX 0 }))).2.slot = 0 := by
  refine ⟨?_, ?_, ?_, ?_⟩ <;> simp [update_paddle, NUM_NINJAS]

/-- C9: on a tick where the accumulated time reaches the period, the
accumulator is reset to exactly zero (no carry-over) and exactly one shuriken
is created, positioned at some target's transform (x-position and spawn
height) with initial velocity the positive launch constant and the ascending
colour; on a tick where the timer has not fired, no shuriken is created and
the accumulator just advances. -/
theorem spawn_contract :
    ∀ (pick : ℕ) (ninjas : List (ℚ × ℚ)) (s : SessionState),
      (s.timerDuration ≤ s.timerElapsed + tickDeltaMs → ninjas ≠ [] →
        (spawn_shurikens pick ninjas s).1 = { s with timerElapsed := 0 } ∧
        ∃ nj ∈ ninjas, (spawn_shurikens pick ninjas s).2
            = some { x := nj.1, y := nj.2, v := SHURIKEN_INIT_VELOCITY, phaseDown := false }) ∧
      (s.timerElapsed + tickDeltaMs < s.timerDuration →
        (spawn_shurikens pick ninjas s).1 = { s with timerElapsed := s.timerElapsed + tickDeltaMs } ∧
        (spawn_shurikens pick ninjas s).2 = none) := by
  intro pick ninjas s
  constructor
  · intro hfire hne
    have hlen : 0 < ninjas.length := List.length_pos.mpr hne
    have hidx : pick % ninjas.length < ninjas.length := Nat.mod_lt pick hlen
    refine ⟨by simp [spawn_shurikens, hfire], ?_⟩
    refine ⟨ninjas[pick % ninjas.length], List.getElem_mem hidx, ?_⟩
    have hsome : ninjas[pick % ninjas.length]? = some ninjas[pick % ninjas.length] :=
      List.getElem?_eq_getElem hidx
    simp [spawn_shurikens, hfire, List.getD, hsome]
  · intro hnf
    have h : ¬ s.timerDuration ≤ s.timerElapsed + tickDeltaMs := by omega
    exact ⟨by simp [spawn_shurikens, h], by simp [spawn_shurikens, h]⟩

theorem spawn_contract_witness :
    (spawn_shurikens 0 [(1, 2)] ⟨3, 0, 1500, 1488, false⟩).1
        = (⟨3, 0, 1500, 0, false⟩ : SessionState) ∧
      ∃ nj ∈ [((1 : ℚ), (2 : ℚ))], (spawn_shurikens 0 [(1, 2)] ⟨3, 0, 1500, 1488, false⟩).2
          = some { x := nj.1, y := nj.2, v := SHURIKEN_INIT_VELOCITY, phaseDown := false } :=
  (spawn_contract 0 [(1, 2)] ⟨3, 0, 1500, 1488, false⟩).1
    (by show (1500 : ℕ) ≤ 1488 + tickDeltaMs; rw [tickDeltaMs_eq]; norm_num) (by simp)

/-- C10: the difficulty timer advances by exactly 16 whole milliseconds per
fixed tick (the truncation of `1000 * TIME_STEP ≈ 16.667`); hence starting
from a cleared accumulator a period of `d` ms first fires on tick number
`⌈d / 16⌉ = (d + 15) / 16`, with no fire on any earlier tick.  For the base
period 1500 ms that is tick 94, i.e. `94 * TIME_STEP = 47/30 ≈ 1.567` units
of simulated time rather than 1.5. -/
theorem timer_granularity :
    tickDeltaMs = 16 ∧
    (∀ (pick : ℕ) (ninjas : List (ℚ × ℚ)) (s : SessionState),
      s.timerElapsed + tickDeltaMs < s.timerDuration →
      (spawn_shurikens pick ninjas s).1.timerElapsed = s.timerElapsed + 16 ∧
      (spawn_shurikens pick ninjas s).2 = none) ∧
    (∀ (pick : ℕ) (ninjas : List (ℚ × ℚ)) (s : SessionState) (k : ℕ),
      s.timerElapsed = 0 → 1 ≤ s.timerDuration →
      (k + 1 < (s.timerDuration + 15) / 16 →
        (spawn_shurikens pick ninjas (spawnTicks pick ninjas s k)).2 = none) ∧
      (k + 1 = (s.timerDuration + 15) / 16 →
        (spawn_shurikens pick ninjas (spawnTicks pick ninjas s k)).2.isSome = true)) ∧
    (1500 + 15) / 16 = 94 ∧ (94 : ℚ) * TIME_STEP = 47 / 30 := by
  have hstep : ∀ (pick : ℕ) (ninjas : List (ℚ × ℚ)) (s : SessionState) (k : ℕ),
      s.timerElapsed = 0 → 16 * k < s.timerDuration →
      (spawnTicks pick ninjas s k).timerElapsed = 16 * k ∧
      (spawnTicks pick ninjas s k).timerDuration = s.timerDuration := by
    intro pick ninjas s k h0
    induction k with
    | zero => exact fun _ => ⟨by simpa [spawnTicks] using h0, rfl⟩
    | succ k ih =>
      intro hk
      have hk' : 16 * k < s.timerDuration := by omega
      obtain ⟨he, hd⟩ := ih hk'
      have hno : ¬ (spawnTicks pick ninjas s k).timerDuration
          ≤ (spawnTicks pick ninjas s k).timerElapsed + tickDeltaMs := by
        rw [he, hd, tickDeltaMs_eq]
        omega
      constructor
      · show (spawn_shurikens pick ninjas (spawnTicks pick ninjas s k)).1.timerElapsed = _
        rw [show (spawn_shurikens pick ninjas (spawnTicks pick ninjas s k)).1
            = { spawnTicks pick ninjas s k with
                timerElapsed := (spawnTicks pick ninjas s k).timerElapsed + tickDeltaMs }
          from by simp [spawn_shurikens, hno]]
        rw [show ({ spawnTicks pick ninjas s k with
            timerElapsed := (spawnTicks pick ninjas s k).timerElapsed + tickDeltaMs
          } : SessionState).timerElapsed
            = (spawnTicks pick ninjas s k).timerElapsed + tickDeltaMs from rfl]
        rw [he, tickDeltaMs_eq]
        omega
      · show (spawn_shurikens pick ninjas (spawnTicks pick ninjas s k)).1.timerDuration = _
        rw [show (spawn_shurikens pick ninjas (spawnTicks pick ninjas s k)).1
            = { spawnTicks pick ninjas s k with
                timerElapsed := (spawnTicks pick ninjas s k).timerElapsed + tickDeltaMs }
          from by simp [spawn_shurikens, hno]]
        rw [show ({ spawnTicks pick ninjas s k with
            timerElapsed := (spawnTicks pick ninjas s k).timerElapsed + tickDeltaMs
          } : SessionState).timerDuration
            = (spawnTicks pick ninjas s k).timerDuration from rfl]
        exact hd
  refine ⟨tickDeltaMs_eq, ?_, ?_, by norm_num, by norm_num [TIME_STEP]⟩
  · intro pick ninjas s hnf
    have h : ¬ s.timerDuration ≤ s.timerElapsed + tickDeltaMs := by omega
    constructor
    · rw [show (spawn_shurikens pick ninjas s).1
          = { s with timerElapsed := s.timerElapsed + tickDeltaMs }
        from by simp [spawn_shurikens, h]]
      rw [show ({ s with timerElapsed := s.timerElapsed + tickDeltaMs } :
          SessionState).timerElapsed = s.timerElapsed + tickDeltaMs from rfl]
      rw [tickDeltaMs_eq]
    · simp [spawn_shurikens, h]
  · intro pick ninjas s k h0 hd1
    constructor
    · intro hlt
      have hk : 16 * (k + 1) < s.timerDuration := by omega
      obtain ⟨he, hdur⟩ := hstep pick ninjas s k h0 (by omega)
      have hno : ¬ (spawnTicks pick ninjas s k).timerDuration
          ≤ (spawnTicks pick ninjas s k).timerElapsed + tickDeltaMs := by
        rw [he, hdur, tickDeltaMs_eq]
        omega
      simp [spawn_shurikens, hno]
    · intro heq
      have hk1 : 16 * k < s.timerDuration := by omega
      have hk2 : s.timerDuration ≤ 16 * (k + 1) := by omega
      obtain ⟨he, hdur⟩ := hstep pick ninjas s k h0 hk1
      have hyes : (spawnTicks pick ninjas s k).timerDuration
          ≤ (spawnTicks pick ninjas s k).timerElapsed + tickDeltaMs := by
        rw [he, hdur, tickDeltaMs_eq]
        omega
      simp [spawn_shurikens, hyes]

theorem timer_granularity_witness :
    (spawn_shurikens 0 [(1, 2)] (spawnTicks 0 [(1, 2)] initialState 93)).2.isSome = true ∧
      tickDeltaMs = 16 :=
  ⟨(timer_granularity.2.2.1 0 [(1, 2)] initialState 93 rfl
      (by rw [initialState_eq]; norm_num)).2
      (by rw [initialState_eq]; norm_num),
    timer_granularity.1⟩

/-! ### Difficulty-formula lemmas -/

lemma rpow_one_div_pow (n : ℕ) (hn : 1 ≤ n) :
    ((1.1 : ℝ) ^ ((1 : ℝ) / n)) ^ n = 1.1 := by
  have hpos : (0 : ℝ) ≤ 1.1 := by norm_num
  have hne : (n : ℝ) ≠ 0 := Nat.cast_ne_zero.mpr (by omega)
  rw [← Real.rpow_natCast ((1.1 : ℝ) ^ ((1 : ℝ) / n)) n, ← Real.rpow_mul hpos]
  rw [one_div, inv_mul_cancel₀ hne, Real.rpow_one]

lemma periodFormula_gt_1500 {n : ℕ} (hn : 1 ≤ n) : 1500 < periodFormula n := by
  unfold periodFormula
  have hn' : (0 : ℝ) < (n : ℝ) := by exact_mod_cast (by omega : 0 < n)
  have h1 : (1 : ℝ) < 1.1 ^ ((1 : ℝ) / n) := by
    rw [Real.one_lt_rpow_iff_of_pos (by norm_num)]
    exact Or.inl ⟨by norm_num, by positivity⟩
  nlinarith

lemma periodFormula_le_1650 {n : ℕ} (hn : 1 ≤ n) : periodFormula n ≤ 1650 := by
  unfold periodFormula
  have hn' : (1 : ℝ) ≤ (n : ℝ) := by exact_mod_cast hn
  have h1 : (1.1 : ℝ) ^ ((1 : ℝ) / n) ≤ 1.1 ^ (1 : ℝ) := by
    rw [Real.rpow_le_rpow_left_iff (by norm_num : (1 : ℝ) < 1.1)]
    rw [div_le_one (by linarith)]
    exact hn'
  rw [Real.rpow_one] at h1
  nlinarith

lemma periodFormula_strictAnti {m n : ℕ} (hm : 1 ≤ m) (hmn : m < n) :
    periodFormula n < periodFormula m := by
  unfold periodFormula
  have hm' : (0 : ℝ) < (m : ℝ) := by exact_mod_cast (by omega : 0 < m)
  have hmn' : (m : ℝ) < (n : ℝ) := by exact_mod_cast hmn
  have h1 : (1.1 : ℝ) ^ ((1 : ℝ) / n) < 1.1 ^ ((1 : ℝ) / m) := by
    rw [Real.rpow_lt_rpow_left_iff (by norm_num : (1 : ℝ) < 1.1)]
    exact one_div_lt_one_div_of_lt hm' hmn'
  nlinarith

lemma le_periodFormula_iff {n : ℕ} (hn : 1 ≤ n) (m : ℕ) :
    (m : ℝ) ≤ periodFormula n ↔ m ^ n * 10 ≤ 11 * 1500 ^ n := by
  have hx : (0 : ℝ) < periodFormula n := lt_trans (by norm_num) (periodFormula_gt_1500 hn)
  have hpow : periodFormula n ^ n = 1.1 * 1500 ^ n := by
    unfold periodFormula
    rw [mul_pow, rpow_one_div_pow n hn]
  have hB : (0 : ℝ) < (1500 : ℝ) ^ n := by positivity
  constructor
  · intro h
    have h2 : (m : ℝ) ^ n ≤ periodFormula n ^ n := pow_le_pow_left₀ (by positivity) h n
    rw [hpow] at h2
    have h3 : (m : ℝ) ^ n * 10 ≤ 11 * (1500 : ℝ) ^ n := by linarith
    exact_mod_cast h3
  · intro h
    have h2 : (m : ℝ) ^ n * 10 ≤ 11 * (1500 : ℝ) ^ n := by exact_mod_cast h
    have h3 : (m : ℝ) ^ n ≤ periodFormula n ^ n := by rw [hpow]; linarith
    exact le_of_pow_le_pow_left₀ (by omega) (le_of_lt hx) h3

lemma newPeriodMs_eq_floor {n : ℕ} (hn : 1 ≤ n) :
    newPeriodMs n = ⌊periodFormula n⌋₊ := by
  have hx0 : (0 : ℝ) ≤ periodFormula n :=
    le_of_lt (lt_trans (by norm_num) (periodFormula_gt_1500 hn))
  have hfl_le : (⌊periodFormula n⌋₊ : ℝ) ≤ periodFormula n := Nat.floor_le hx0
  have hP : ⌊periodFormula n⌋₊ ^ n * 10 ≤ 11 * 1500 ^ n :=
    (le_periodFormula_iff hn _).mp hfl_le
  have hb : ⌊periodFormula n⌋₊ ≤ 1650 := by
    have h : ⌊periodFormula n⌋₊ ≤ ⌊(1650 : ℝ)⌋₊ := Nat.floor_le_floor (periodFormula_le_1650 hn)
    simpa using h
  apply le_antisymm
  · by_cases h0 : newPeriodMs n = 0
    · rw [h0]
      exact Nat.zero_le _
    · have hPm : newPeriodMs n ^ n * 10 ≤ 11 * 1500 ^ n :=
        @Nat.findGreatest_of_ne_zero (newPeriodMs n) (fun m => m ^ n * 10 ≤ 11 * 1500 ^ n)
          (fun m => Nat.decLe _ _) 1650 rfl h0
      exact Nat.le_floor ((le_periodFormula_iff hn _).mpr hPm)
  · exact Nat.le_findGreatest hb hP

lemma newPeriodMs_ge_1500 {n : ℕ} (hn : 1 ≤ n) : 1500 ≤ newPeriodMs n := by
  apply Nat.le_findGreatest (by norm_num)
  calc 1500 ^ n * 10 ≤ 1500 ^ n * 11 := Nat.mul_le_mul_left _ (by norm_num)
    _ = 11 * 1500 ^ n := Nat.mul_comm _ _

lemma processShuriken_block (pad : ℚ × ℚ) (ninjas : List (ℚ × ℚ)) (s : SessionState)
    (sh : Shuriken) (h : collide (sh.x, sh.y) SHURIKEN_SIZE pad PADDLE_SIZE = true) :
    processShuriken pad ninjas s sh =
      ({ s with
          blocked := s.blocked + 1
          timerDuration := newPeriodMs (s.blocked + 1)
          timerElapsed := 0 }, 1) := by
  simp [processShuriken, h]

lemma hitNinjas_blocked (ninjas : List (ℚ × ℚ)) (pos : ℚ × ℚ) (s : SessionState) :
    (hitNinjas ninjas pos s).1.blocked = s.blocked := by
  induction ninjas generalizing s with
  | nil => rfl
  | cons nj tl ih =>
    by_cases h : collide pos SHURIKEN_SIZE nj NINJA_SIZE = true
    · simp only [hitNinjas, List.foldl_cons, h, if_true]
      rw [hitNinjas_shift]
      exact ih { s with lives := usizeWrapDec s.lives }
    · simp only [Bool.not_eq_true] at h
      simp only [hitNinjas, List.foldl_cons, h, Bool.false_eq_true, if_false]
      exact ih s

lemma spawn_shurikens_blocked (pick : ℕ) (ninjas : List (ℚ × ℚ)) (s : SessionState) :
    (spawn_shurikens pick ninjas s).1.blocked = s.blocked := by
  by_cases h : s.timerDuration ≤ s.timerElapsed + tickDeltaMs
  · simp [spawn_shurikens, h]
  · simp [spawn_shurikens, h]

lemma update_paddle_blocked (l r : Bool) (z : SessionState × PaddleState) :
    (update_paddle l r z).1.blocked = z.1.blocked := by
  by_cases hd : z.1.keyDebounce
  · by_cases hlr : (l || r) = true
    · simp [update_paddle, hd, hlr]
    · simp [update_paddle, hd, hlr]
  · by_cases h1 : (l && decide (0 < z.2.slot)) = true
    · simp [update_paddle, hd, h1]
    · by_cases h2 : (r && decide (z.2.slot < NUM_NINJAS - 1)) = true
      · simp [update_paddle, hd, h1, h2]
      · simp [update_paddle, hd, h1, h2]

/-- C4 (amended): on a paddle overlap the resolver despawns the projectile,
increments blocked by exactly 1 (no other system nor the target branch ever
changes blocked), and installs a fresh timer with cleared accumulator whose
duration is `⌊1.1 ^ (1/blocked) * 1500⌋` whole milliseconds — the formula
truncated to integer milliseconds by the duration conversion.  The untruncated
formula `1.1 ^ (1/N) * 1500` is strictly decreasing in `N` and strictly above
1500 for every `N ≥ 1`, and the stored truncated period never goes below
1500. -/
theorem paddle_block_rescale :
    ∀ (pad : ℚ × ℚ) (ninjas : List (ℚ × ℚ)) (s : SessionState) (sh : Shuriken),
      (collide (sh.x, sh.y) SHURIKEN_SIZE pad PADDLE_SIZE = true →
        processShuriken pad ninjas s sh =
          ({ s with
              blocked := s.blocked + 1
              timerDuration := newPeriodMs (s.blocked + 1)
              timerElapsed := 0 }, 1)) ∧
      (collide (sh.x, sh.y) SHURIKEN_SIZE pad PADDLE_SIZE = false →
        (processShuriken pad ninjas s sh).1.blocked = s.blocked) ∧
      (∀ pick, (spawn_shurikens pick ninjas s).1.blocked = s.blocked) ∧
      (∀ l r (p : PaddleState), (update_paddle l r (s, p)).1.blocked = s.blocked) ∧
      (∀ n, 1 ≤ n → newPeriodMs n = ⌊periodFormula n⌋₊) ∧
      (∀ n, 1 ≤ n → 1500 ≤ newPeriodMs n) ∧
      (∀ n, 1 ≤ n → 1500 < periodFormula n) ∧
      (∀ m n, 1 ≤ m → m < n → periodFormula n < periodFormula m) := by
  intro pad ninjas s sh
  refine ⟨processShuriken_block pad ninjas s sh, ?_,
    fun pick => spawn_shurikens_blocked pick ninjas s,
    fun l r p => update_paddle_blocked l r (s, p),
    fun n hn => newPeriodMs_eq_floor hn, fun n hn => newPeriodMs_ge_1500 hn,
    fun n hn => periodFormula_gt_1500 hn, fun m n hm hmn => periodFormula_strictAnti hm hmn⟩
  intro hpad
  simp only [processShuriken, hpad, Bool.false_eq_true, if_false]
  exact hitNinjas_blocked ninjas (sh.x, sh.y) s

theorem paddle_block_rescale_witness :
    processShuriken (1, 2) [] ⟨3, 0, 1500, 700, false⟩
        { x := 1, y := 2, v := -1, phaseDown := true }
      = (⟨3, 1, newPeriodMs 1, 0, false⟩, 1) ∧ 1500 ≤ newPeriodMs 1 := by
  have hpadc : collide (1, 2) SHURIKEN_SIZE (1, 2) PADDLE_SIZE = true := by
    rw [collide_eq_true_iff]
    norm_num [SHURIKEN_SIZE, PADDLE_SIZE, RIGHT_WALL, NUM_NINJAS]
  exact ⟨(paddle_block_rescale (1, 2) [] ⟨3, 0, 1500, 700, false⟩
      { x := 1, y := 2, v := -1, phaseDown := true }).1 hpadc,
    (paddle_block_rescale (1, 2) [] ⟨3, 0, 1500, 700, false⟩
      { x := 1, y := 2, v := -1, phaseDown := true }).2.2.2.2.2.1 1 le_rfl⟩

lemma formula_ne_1573 : ((1573 : ℝ)) ≠ periodFormula 2 := by
  intro h
  have h2 : ((1573 : ℝ)) ^ 2 = periodFormula 2 ^ 2 := by rw [h]
  have h3 : periodFormula 2 ^ 2 = 1.1 * 1500 ^ 2 := by
    unfold periodFormula
    rw [mul_pow, rpow_one_div_pow 2 (by norm_num)]
  rw [h3] at h2
  norm_num at h2

/-- C4 counterexample: after the second block the stored timer duration is the
truncated value 1573 ms, which differs from the claimed exact period
`1.1 ^ (1/2) * 1500` (an irrational number ≈ 1573.213...); likewise the stored
integer periods are not strictly decreasing forever — they bottom out at
exactly 1500 — so only the untruncated formula is strictly decreasing. -/
theorem period_truncation_counterexample :
    (processShuriken (1, 2) [] ⟨3, 1, 1650, 0, false⟩
        { x := 1, y := 2, v := -1, phaseDown := true }).1.timerDuration = 1573 ∧
      ((1573 : ℝ)) ≠ periodFormula 2 := by
  have hpadc : collide (1, 2) SHURIKEN_SIZE (1, 2) PADDLE_SIZE = true := by
    rw [collide_eq_true_iff]
    norm_num [SHURIKEN_SIZE, PADDLE_SIZE, RIGHT_WALL, NUM_NINJAS]
  constructor
  · rw [processShuriken_block (1, 2) [] ⟨3, 1, 1650, 0, false⟩
      { x := 1, y := 2, v := -1, phaseDown := true } hpadc]
    show newPeriodMs 2 = 1573
    decide
  · exact formula_ne_1573
